import Mathlib

/-!
# Verification of the LEMI424 reader and the run-segmentation example

Shallow embedding of `mth5/io/lemi/lemi424.py` and of the run-segmentation
loop of `examples/make_mth5_from_iris_dmc_local.py`, with theorems checking
the natural-language specification against it.

Python floats are modelled by `ℚ`; timestamps by abstract `ℕ` ticks (the
date column combined by the date converter); the filesystem by the list of
existing paths; exceptions by `Except String`.
-/

namespace Mth5Lemi

/-- The hemisphere converter (lemi424.py lines 76-88): convert a hemisphere
letter into a value in [-1, 1].  `if hemisphere in ["S", "W"]: return -1;
return 1`.  The value participates in float arithmetic downstream, hence `ℚ`. -/
def lemi_hemisphere_parse (hemisphere : String) : ℚ :=
  if hemisphere = "S" ∨ hemisphere = "W" then -1 else 1

/-- The position converter (lemi424.py lines 59-73) on an integer position
string of value `position`.  The source computes
`pos = f"{float(position) / 100}".split(".")`, then
`degrees = int(pos[0])` and `decimals = float(f"{pos[1][0:2]}.{pos[1][2:]}") / 60`,
returning `degrees + decimals`.

For an integer input `n` small enough that `n / 100` is printed back as the
exact decimal (the shortest round-tripping representation of the quotient):
the integer part `pos[0]` has value `n / 100` and the fractional digit string
`pos[1]` carries the value `r = n % 100` in two digits with trailing zeros
stripped (so `"0"` when `r = 0`, one digit `r / 10` when `10 ∣ r`, and the
two digits of `r` otherwise — a single non-zero digit `r < 10` prints as
`"0r"`).  `pos[1][0:2]` therefore has value `r / 10` when `10 ∣ r` and `r`
otherwise, and `pos[1][2:]` is empty. -/
def lemi_position_parse (position : ℕ) : ℚ :=
  ((position / 100 : ℕ) : ℚ) +
    (if position % 100 % 10 = 0 then ((position % 100 / 10 : ℕ) : ℚ)
     else ((position % 100 : ℕ) : ℚ)) / 60

/-- The spec's Coordinate Decoder applied to a packed position string and a
hemisphere letter.  In the source the two converters act on separate columns
and the sign is applied when the two columns are multiplied
(`LEMI424.latitude` / `LEMI424.longitude`); their product on a single row is
the signed decimal-degree value. -/
def lemi_decode (position : ℕ) (hemisphere : String) : ℚ :=
  lemi_position_parse position * lemi_hemisphere_parse hemisphere

/-- The Coordinate Decoder as §4.1 of the spec words it, for an integer
packed input: divide the parsed number by 100; the integer part left of the
decimal point (`position / 100`) is degrees; the fractional part — first two
digits plus remainder, i.e. the value `position % 100` for an integer input —
is minutes; minutes are converted to degrees (`/60`) and added; the
hemisphere sign multiplies the result. -/
def spec_coordinate_decoder (position : ℕ) (hemisphere : String) : ℚ :=
  lemi_hemisphere_parse hemisphere *
    (((position / 100 : ℕ) : ℚ) + ((position % 100 : ℕ) : ℚ) / 60)

/-- pandas `Series.median`: sort the values; for an odd count take the middle
element, for an even count the mean of the two middle elements.  (An empty
series has median NaN in pandas; every caller below reaches this function
only with a non-empty list, because a read of an empty file fails.) -/
def median (l : List ℚ) : ℚ :=
  let s := List.insertionSort (· ≤ ·) l
  if l.length % 2 = 1 then s.getD (l.length / 2) 0
  else (s.getD (l.length / 2 - 1) 0 + s.getD (l.length / 2) 0) / 2

/-- One raw whitespace-delimited record of the LEMI424 file, after the six
date/time columns have been combined by the date converter into one
timestamp (`date`, an abstract tick) but before the position and hemisphere
converters run: `latitude`/`longitude` are the packed integer position
strings and the hemispheres are their letters.  Column order as in
`LEMI424.column_names` (lemi424.py lines 106-131). -/
structure RawRow where
  date : ℕ
  bx : ℚ
  «by» : ℚ
  bz : ℚ
  temperature_e : ℚ
  temperature_h : ℚ
  e1 : ℚ
  e2 : ℚ
  e3 : ℚ
  e4 : ℚ
  battery : ℚ
  elevation : ℚ
  latitude : ℕ
  lat_hemisphere : String
  longitude : ℕ
  lon_hemisphere : String
  n_satellites : ℕ
  gps_fix : ℕ
  tdiff : ℚ
deriving DecidableEq, Repr

/-- One row of the parsed dataframe `self._df`: the converters declared in
`pd.read_csv` (lemi424.py lines 243-258) have been applied, so the position
columns hold decoded decimal degrees and the hemisphere columns hold ±1. -/
structure Row where
  date : ℕ
  bx : ℚ
  «by» : ℚ
  bz : ℚ
  temperature_e : ℚ
  temperature_h : ℚ
  e1 : ℚ
  e2 : ℚ
  e3 : ℚ
  e4 : ℚ
  battery : ℚ
  elevation : ℚ
  latitude : ℚ
  lat_hemisphere : ℚ
  longitude : ℚ
  lon_hemisphere : ℚ
  n_satellites : ℕ
  gps_fix : ℕ
  tdiff : ℚ
deriving DecidableEq, Repr

/-- Application of the per-column converters to one raw record. -/
def parseRow (r : RawRow) : Row :=
  { date := r.date
    bx := r.bx
    «by» := r.«by»
    bz := r.bz
    temperature_e := r.temperature_e
    temperature_h := r.temperature_h
    e1 := r.e1
    e2 := r.e2
    e3 := r.e3
    e4 := r.e4
    battery := r.battery
    elevation := r.elevation
    latitude := lemi_position_parse r.latitude
    lat_hemisphere := lemi_hemisphere_parse r.lat_hemisphere
    longitude := lemi_position_parse r.longitude
    lon_hemisphere := lemi_hemisphere_parse r.lon_hemisphere
    n_satellites := r.n_satellites
    gps_fix := r.gps_fix
    tdiff := r.tdiff }

/-- Column access `self._df[comp].values` by column name, for the columns
`to_run_ts` can select.  (An unknown name raises KeyError in pandas; no call
site below uses one.) -/
def Row.column (r : Row) (name : String) : ℚ :=
  if name = "bx" then r.bx
  else if name = "by" then r.«by»
  else if name = "bz" then r.bz
  else if name = "temperature_e" then r.temperature_e
  else if name = "temperature_h" then r.temperature_h
  else if name = "e1" then r.e1
  else if name = "e2" then r.e2
  else if name = "e3" then r.e3
  else if name = "e4" then r.e4
  else if name = "battery" then r.battery
  else if name = "elevation" then r.elevation
  else if name = "latitude" then r.latitude
  else if name = "lat_hemisphere" then r.lat_hemisphere
  else if name = "longitude" then r.longitude
  else if name = "lon_hemisphere" then r.lon_hemisphere
  else if name = "tdiff" then r.tdiff
  else 0

/-- The reader state (`class LEMI424`).  `df` models `self._df`; before any
read the attribute does not exist in Python, modelled as `[]` (every access
in the source is guarded by `self._has_data`). -/
structure LEMI424 where
  fn : Option String
  has_data : Bool
  sample_rate : ℚ
  chunk_size : ℕ
  df : List Row
deriving DecidableEq, Repr

/-- `LEMI424.__init__` with `fn=None`: no read is attempted and
`_has_data = False`, `sample_rate = 1.0`, `chunk_size = 10000`. -/
def LEMI424.new : LEMI424 :=
  { fn := none, has_data := false, sample_rate := 1, chunk_size := 10000, df := [] }

/-- The `fn` setter (lemi424.py lines 154-160): a non-None value is checked
for existence on the filesystem `fs` and `IOError(f"Could not find {value}")`
is raised when it does not exist; `None` is stored unchecked. -/
def fn_set (fs : List String) (s : LEMI424) (value : Option String) :
    Except String LEMI424 :=
  match value with
  | none => .ok { s with fn := none }
  | some p =>
      if fs.contains p then .ok { s with fn := some p }
      else .error ("Could not find " ++ p)

/-- `LEMI424.read` (lemi424.py lines 225-260): an explicit `fn` argument goes
through the `fn` setter (which may raise); then `self.fn.exists()` is checked
— on a stored `None` this is an AttributeError, on a missing path
`IOError("Could not find file %s" % self.fn)` — and pandas parses the file
into the timestamp-indexed dataframe, applying the position and hemisphere
converters; finally `self._has_data = True`.  `contents` maps an existing
path to its raw records; pandas raises EmptyDataError ("No columns to parse
from file") on an empty file, so a successful read yields a non-empty table. -/
def LEMI424.read (fs : List String) (contents : String → List RawRow)
    (s : LEMI424) (fnArg : Option String) : Except String LEMI424 :=
  match (match fnArg with
         | some p => fn_set fs s (some p)
         | none => .ok s) with
  | .error e => .error e
  | .ok s1 =>
      match s1.fn with
      | none => .error "AttributeError: NoneType object has no attribute exists"
      | some p =>
          if fs.contains p then
            match contents p with
            | [] => .error ("No columns to parse from file " ++ p)
            | raw => .ok { s1 with df := (raw.map parseRow), has_data := true }
          else .error ("Could not find file " ++ p)

/-- `LEMI424.start`: `MTime(self._df.index[0])` when `_has_data`, otherwise
the property body ends without `return` and Python yields None.  (The index
of a successfully read table is never empty.) -/
def LEMI424.start (s : LEMI424) : Option ℕ :=
  if s.has_data then (s.df.head?).map Row.date else none

/-- `LEMI424.end`: `MTime(self._df.index[-1])` when `_has_data`, else None. -/
def LEMI424.«end» (s : LEMI424) : Option ℕ :=
  if s.has_data then (s.df.getLast?).map Row.date else none

/-- `LEMI424.latitude`:
`self._df.latitude.median() * self._df.lat_hemisphere.median()` when
`_has_data`, else None. -/
def LEMI424.latitude (s : LEMI424) : Option ℚ :=
  if s.has_data then
    some (median (s.df.map Row.latitude) * median (s.df.map Row.lat_hemisphere))
  else none

/-- `LEMI424.longitude`:
`self._df.longitude.median() * self._df.lon_hemisphere.median()` when
`_has_data`, else None. -/
def LEMI424.longitude (s : LEMI424) : Option ℚ :=
  if s.has_data then
    some (median (s.df.map Row.longitude) * median (s.df.map Row.lon_hemisphere))
  else none

/-- `LEMI424.elevation`: `self._df.elevation.median()` when `_has_data`,
else None. -/
def LEMI424.elevation (s : LEMI424) : Option ℚ :=
  if s.has_data then some (median (s.df.map Row.elevation)) else none

/-- `LEMI424.n_samples`: `self._df.shape[0]` when `_has_data`, else None. -/
def LEMI424.n_samples (s : LEMI424) : Option ℕ :=
  if s.has_data then some s.df.length else none

/-- `LEMI424.gps_lock`: `self._df.gps_fix.values` when `_has_data`, else
None. -/
def LEMI424.gps_lock (s : LEMI424) : Option (List ℕ) :=
  if s.has_data then some (s.df.map Row.gps_fix) else none

/-- The external mt_metadata `Station` record, modelled as an opaque
structured record as §6 of the spec treats it: only the fields the reader
populates are carried; a field the reader has not populated is `none`. -/
structure Station where
  latitude : Option ℚ
  longitude : Option ℚ
  elevation : Option ℚ
  time_period_start : Option ℕ
  time_period_end : Option ℕ
deriving DecidableEq, Repr

/-- `Station()` freshly constructed, nothing populated. -/
def Station.empty : Station :=
  { latitude := none, longitude := none, elevation := none
    time_period_start := none, time_period_end := none }

/-- `LEMI424.station_metadata` (lemi424.py lines 202-211): a fresh `Station`
whose location and time period are populated from the derived properties
when `_has_data`, and returned as-is otherwise. -/
def LEMI424.station_metadata (s : LEMI424) : Station :=
  if s.has_data then
    { latitude := s.latitude
      longitude := s.longitude
      elevation := s.elevation
      time_period_start := s.start
      time_period_end := s.«end» }
  else Station.empty

/-- The external mt_metadata `Run` record, modelled opaquely like `Station`. -/
structure RunMeta where
  sample_rate : Option ℚ
  data_logger_model : Option String
  data_logger_manufacturer : Option String
  voltage_start : Option ℚ
  voltage_end : Option ℚ
  time_period_start : Option ℕ
  time_period_end : Option ℕ
deriving DecidableEq, Repr

/-- The local record `r` built by the body of the `run_metadata` property
(lemi424.py lines 213-223): sample rate, data-logger model and manufacturer
always; power-source voltage start = `self._df.battery.max()`, voltage end =
`self._df.battery.min()` and the time period when `_has_data`. -/
def LEMI424.run_metadata_record (s : LEMI424) : RunMeta :=
  let r : RunMeta :=
    { sample_rate := some s.sample_rate
      data_logger_model := some "LEMI424"
      data_logger_manufacturer := some "LEMI"
      voltage_start := none, voltage_end := none
      time_period_start := none, time_period_end := none }
  if s.has_data then
    { r with voltage_start := (s.df.map Row.battery).max?
             voltage_end := (s.df.map Row.battery).min?
             time_period_start := s.start
             time_period_end := s.«end» }
  else r

/-- The `run_metadata` property as Python evaluates it: the body constructs
the record `r` (`LEMI424.run_metadata_record`) but contains no `return`
statement, so the property's value is None for every state of the reader. -/
def LEMI424.run_metadata (s : LEMI424) : Option RunMeta :=
  let _r := s.run_metadata_record
  none

/-- Channel type chosen by `ChannelTS(...)` in `to_run_ts`. -/
inductive ChannelType where
  | magnetic
  | electric
  | auxiliary
deriving DecidableEq, Repr

/-- One `ChannelTS` as `to_run_ts` populates it: type, sample rate, start
time, the full column values and the component name. -/
structure ChannelTS where
  chType : ChannelType
  sample_rate : ℚ
  start : Option ℕ
  ts : List ℚ
  component : String
deriving DecidableEq, Repr

/-- The `RunTS` aggregate returned by `to_run_ts`: the ordered channel list
plus the station and run metadata records. -/
structure RunTS where
  array_list : List ChannelTS
  station_metadata : Station
  run_metadata : Option RunMeta
deriving DecidableEq, Repr

/-- `LEMI424.to_run_ts` (lemi424.py lines 262-295): iterate over
`["bx", "by", "bz"] + e_channels + ["temperature_e", "temperature_h"]`; a
component whose first character is `h` or `b` becomes a magnetic channel,
first character `e` an electric channel, anything else an auxiliary channel;
each channel gets the reader's sample rate, the reader's start time, the
component's full column as data and the component name. -/
def LEMI424.to_run_ts (s : LEMI424) (e_channels : List String) : RunTS :=
  { array_list :=
      (["bx", "by", "bz"] ++ e_channels ++ ["temperature_e", "temperature_h"]).map
        (fun comp =>
          { chType :=
              if comp.take 1 = "h" ∨ comp.take 1 = "b" then ChannelType.magnetic
              else if comp.take 1 = "e" then ChannelType.electric
              else ChannelType.auxiliary
            sample_rate := s.sample_rate
            start := s.start
            ts := s.df.map (fun r => r.column comp)
            component := comp })
    station_metadata := s.station_metadata
    run_metadata := s.run_metadata }

/-- String rendering of an optional rational, `f"{x}"` on a possibly-None
value (Python renders None as "None" inside an f-string without raising). -/
def optQStr (q : Option ℚ) : String :=
  match q with
  | none => "None"
  | some x => toString x

/-- String rendering of an optional count. -/
def optNatStr (q : Option ℕ) : String :=
  match q with
  | none => "None"
  | some x => toString x

/-- `LEMI424.__str__` (lemi424.py lines 136-145; `__repr__` delegates to it):
the start and end lines call `self.start.isoformat()` and
`self.end.isoformat()` unconditionally, so on a reader with no data loaded
(`start` is None) the formatting raises AttributeError instead of producing
a placeholder; with data the joined lines are returned. -/
def LEMI424.toStr (s : LEMI424) : Except String String :=
  match s.start with
  | none => .error "AttributeError: NoneType object has no attribute isoformat"
  | some st =>
      match s.«end» with
      | none => .error "AttributeError: NoneType object has no attribute isoformat"
      | some en =>
          .ok (String.intercalate "\n"
            ["LEMI 424 data", "--------------------",
             "start:      " ++ toString st,
             "end:        " ++ toString en,
             "N samples:  " ++ optNatStr s.n_samples,
             "latitude:   " ++ optQStr s.latitude ++ " (degrees)",
             "longitude:  " ++ optQStr s.longitude ++ " (degrees)",
             "elevation:  " ++ optQStr s.elevation ++ " m"])

/-! ## The run-segmentation loop of `examples/make_mth5_from_iris_dmc_local.py` -/

/-- One obspy trace of the input stream: its start and end times (abstract
ticks; the script compares their isoformat strings, whose lexicographic
order is the chronological order) and its timestamped samples. -/
structure Trace where
  starttime : ℕ
  endtime : ℕ
  samples : List (ℕ × ℚ)
deriving DecidableEq, Repr

/-- `sorted(list(set(xs)))`: the distinct values in ascending order. -/
def sorted_set (l : List ℕ) : List ℕ :=
  List.insertionSort (· ≤ ·) l.dedup

/-- obspy `Stream.slice(t0, t1)` on one trace: trim to the closed window
`[t0, t1]` (inclusive on both endpoints). -/
def sliceTrace (t0 t1 : ℕ) (tr : Trace) : Trace :=
  { starttime := max tr.starttime t0
    endtime := min tr.endtime t1
    samples := tr.samples.filter (fun p => decide (t0 ≤ p.1 ∧ p.1 ≤ t1)) }

/-- `f"{index:03}"`: zero-pad the decimal digits to a minimum width of 3. -/
def pad3 (n : ℕ) : String :=
  String.mk (List.replicate (3 - (Nat.repr n).length) '0') ++ Nat.repr n

/-- One run produced by the segmentation loop: the run group identifier, the
`(start, end)` window it was sliced with, and the sliced stream. -/
structure StreamRun where
  id : String
  window : ℕ × ℕ
  stream : List Trace
deriving DecidableEq, Repr

/-- The run-segmentation loop (make_mth5_from_iris_dmc_local.py lines
39-49): `start_times = sorted(list(set(starttimes)))` and
`end_times = sorted(list(set(endtimes)))` are deduplicated and sorted
separately; `enumerate(zip(start_times, end_times), 1)` pairs them
positionally; each pair slices the whole stream once and the run group is
added under the identifier `f"{index:03}"`. -/
def segmentRuns (streams : List Trace) : List StreamRun :=
  let start_times := sorted_set (streams.map Trace.starttime)
  let end_times := sorted_set (streams.map Trace.endtime)
  (start_times.zip end_times).enum.map
    (fun p =>
      { id := pad3 (p.1 + 1)
        window := p.2
        stream := streams.map (sliceTrace p.2.1 p.2.2) })

/-! ## Concrete fixtures -/

/-- A raw record at tick `t` with battery reading `batt`; packed latitude
`"3500"` (35°00.00′ N) and packed longitude `"700"` (7°00.00′ W). -/
def exRawRow (t : ℕ) (batt : ℚ) : RawRow :=
  { date := t, bx := 1, «by» := 2, bz := 3, temperature_e := 20, temperature_h := 21,
    e1 := 4, e2 := 5, e3 := 6, e4 := 7, battery := batt, elevation := 1200,
    latitude := 3500, lat_hemisphere := "N", longitude := 700, lon_hemisphere := "W",
    n_satellites := 8, gps_fix := 1, tdiff := 0 }

/-- `exRawRow` after the converters: latitude 35, hemisphere +1; longitude 7,
hemisphere −1. -/
def exRow (t : ℕ) (batt : ℚ) : Row :=
  { date := t, bx := 1, «by» := 2, bz := 3, temperature_e := 20, temperature_h := 21,
    e1 := 4, e2 := 5, e3 := 6, e4 := 7, battery := batt, elevation := 1200,
    latitude := 35, lat_hemisphere := 1, longitude := 7, lon_hemisphere := -1,
    n_satellites := 8, gps_fix := 1, tdiff := 0 }

/-- A filesystem holding one data file. -/
def exFs : List String := ["data.txt"]

/-- File contents: three samples at ticks 100, 101, 102 with battery
readings 10.0, 9.5, 9.8. -/
def exContents : String → List RawRow :=
  fun _ => [exRawRow 100 10, exRawRow 101 (19/2), exRawRow 102 (49/5)]

/-- The reader after the successful read of `"data.txt"`. -/
def exLoaded : LEMI424 :=
  { fn := some "data.txt", has_data := true, sample_rate := 1, chunk_size := 10000,
    df := [exRow 100 10, exRow 101 (19/2), exRow 102 (49/5)] }

/-- Reading the fixture file produces exactly `exLoaded`. -/
theorem exLoaded_read :
    LEMI424.read exFs exContents LEMI424.new (some "data.txt") = .ok exLoaded := by
  norm_num [LEMI424.read, fn_set, exFs, exContents, exLoaded, exRow, exRawRow, parseRow,
    lemi_position_parse, lemi_hemisphere_parse, LEMI424.new]
  decide

/-- An unloaded reader whose stored path no longer exists on `exFs`. -/
def exMissing : LEMI424 :=
  { fn := some "gone.txt", has_data := false, sample_rate := 1, chunk_size := 10000,
    df := [] }

/-! ## Helper lemmas -/

/-- Any state a successful `read` returns has the has-data flag set and a
non-empty dataframe obtained by applying the converters to raw records. -/
theorem read_ok_shape {fs : List String} {contents : String → List RawRow}
    {s st : LEMI424} {arg : Option String}
    (h : LEMI424.read fs contents s arg = .ok st) :
    st.has_data = true ∧ st.df ≠ [] ∧ ∃ raw : List RawRow, st.df = raw.map parseRow := by
  unfold LEMI424.read at h
  split at h
  · exact absurd h (by simp)
  · split at h
    · exact absurd h (by simp)
    · split at h
      · split at h
        · exact absurd h (by simp)
        · rename_i hne
          obtain rfl := (Except.ok.injEq _ _).mp h
          refine ⟨rfl, ?_, _, rfl⟩
          simpa using hne
      · exact absurd h (by simp)

/-- In a list whose dates are pairwise non-decreasing, the head's date is at
most the last element's date. -/
theorem head_date_le_getLast_date {l : List Row}
    (hp : l.Pairwise (fun a b => a.date ≤ b.date))
    {x y : Row} (hx : l.head? = some x) (hy : l.getLast? = some y) :
    x.date ≤ y.date := by
  cases l with
  | nil => cases hx
  | cons a as =>
    have hax : a = x := by simpa using hx
    subst hax
    have hy' : y ∈ a :: as := by
      obtain ⟨hne, rfl⟩ := List.mem_getLast?_eq_getLast hy
      exact List.getLast_mem hne
    rcases List.mem_cons.mp hy' with rfl | hmem
    · exact le_refl _
    · exact (List.pairwise_cons.mp hp).1 y hmem

/-- `map Prod.fst` of a zip is a prefix of the left list. -/
theorem map_fst_zip_eq_take {α β : Type} (l1 : List α) (l2 : List β) :
    (l1.zip l2).map Prod.fst = l1.take l2.length := by
  induction l1 generalizing l2 with
  | nil => simp
  | cons a as ih =>
    cases l2 with
    | nil => simp
    | cons b bs => simp [ih]

/-- `map Prod.snd` of a zip is a prefix of the right list. -/
theorem map_snd_zip_eq_take {α β : Type} (l1 : List α) (l2 : List β) :
    (l1.zip l2).map Prod.snd = l2.take l1.length := by
  induction l1 generalizing l2 with
  | nil => simp
  | cons a as ih =>
    cases l2 with
    | nil => simp
    | cons b bs => simp [ih]

/-- Mapping the head of the payload over an enumerated pair list drops the
enumeration. -/
theorem enum_map_snd_fst {α β : Type} (l : List (α × β)) :
    l.enum.map (fun p => p.2.1) = l.map Prod.fst := by
  rw [show (fun p : ℕ × α × β => p.2.1) = (Prod.fst ∘ Prod.snd) from rfl,
    ← List.map_map, List.enum_map_snd]

/-- Mapping the tail of the payload over an enumerated pair list drops the
enumeration. -/
theorem enum_map_snd_snd {α β : Type} (l : List (α × β)) :
    l.enum.map (fun p => p.2.2) = l.map Prod.snd := by
  rw [show (fun p : ℕ × α × β => p.2.2) = (Prod.snd ∘ Prod.snd) from rfl,
    ← List.map_map, List.enum_map_snd]

/-- `sorted_set` is strictly ascending. -/
theorem sorted_set_sorted (l : List ℕ) : List.Sorted (· < ·) (sorted_set l) := by
  have hs := List.sorted_insertionSort (· ≤ ·) l.dedup
  have hn : (List.insertionSort (· ≤ ·) l.dedup).Nodup :=
    ((List.perm_insertionSort _ _).nodup_iff).mpr (List.nodup_dedup l)
  exact hs.lt_of_le hn

/-! ## Claims -/

/-- **C1** (code bug).  The spec says the run metadata record reports
`power_source.voltage.start` = max battery reading and
`power_source.voltage.end` = min battery reading; the body of the
`run_metadata` property does assign exactly those values to its local record
`r` — for battery readings (10, 9.5, 9.8) voltage start 10 and voltage end
9.5 — but the property has no `return` statement, so the property's value is
None for every reader state and no record is ever reported (while the
adjacent `station_metadata` property does return its record, and `to_run_ts`
passes `self.run_metadata` along as if it were a record). -/
theorem C1_run_metadata_property_returns_none :
    (∀ s : LEMI424, s.run_metadata = none) ∧
    exLoaded.run_metadata = none ∧
    exLoaded.df.map Row.battery = [10, 19/2, 49/5] ∧
    exLoaded.run_metadata_record.voltage_start = some 10 ∧
    exLoaded.run_metadata_record.voltage_end = some (19/2) := by
  refine ⟨fun s => rfl, rfl, by norm_num [exLoaded, exRow], ?_, ?_⟩ <;>
    norm_num [LEMI424.run_metadata_record, exLoaded, exRow, List.max?, List.min?,
      max_def, min_def]

/-- **C2** (counterexample).  The claim's concrete value is wrong: on the
packed input `"3500000"` with hemisphere `"N"` the decoder yields 35000.0,
not 35.0 (`float("3500000") / 100` is 35000.0, whose integer part is already
the full 35000). -/
theorem C2_coordinate_decoder_counterexample :
    lemi_decode 3500000 "N" = 35000 ∧ lemi_decode 3500000 "N" ≠ 35 := by
  constructor <;> norm_num [lemi_decode, lemi_position_parse, lemi_hemisphere_parse] <;>
    decide

/-- **C2** (amended).  The Coordinate Decoder divides the parsed number by
100, takes the integer part left of the decimal point as degrees and the
fractional part (first two digits plus remainder) as minutes, converts
minutes to degrees by dividing by 60, adds them and applies the hemisphere
sign — formalised as agreement with `spec_coordinate_decoder` for every
integer packed input whose two trailing digits survive the float formatting
unchanged (last digit non-zero, or both zero) — and in particular
`decode("3500000", "N") = 35000.0` and `decode("3500000", "S") = -35000.0`
(not ±35.0 as the claim's example said). -/
theorem C2_coordinate_decoder (n : ℕ) (h : String)
    (hn : n % 10 ≠ 0 ∨ n % 100 = 0) :
    lemi_decode n h = spec_coordinate_decoder n h ∧
    lemi_decode 3500000 "N" = 35000 ∧ lemi_decode 3500000 "S" = -35000 := by
  refine ⟨?_, ?_, ?_⟩
  · unfold lemi_decode spec_coordinate_decoder lemi_position_parse
    rcases hn with hn | hn
    · rw [if_neg (by rwa [Nat.mod_mod_of_dvd n (by norm_num)])]
      ring
    · rw [hn]
      norm_num
      ring
  · norm_num [lemi_decode, lemi_position_parse, lemi_hemisphere_parse]
    decide
  · norm_num [lemi_decode, lemi_position_parse, lemi_hemisphere_parse]

/-- **C2** witness: the amended theorem applied at `n = 3500000`, `h = "N"`. -/
theorem C2_coordinate_decoder_witness :
    lemi_decode 3500000 "N" = spec_coordinate_decoder 3500000 "N" ∧
    lemi_decode 3500000 "N" = 35000 ∧ lemi_decode 3500000 "S" = -35000 :=
  C2_coordinate_decoder 3500000 "N" (Or.inr (by norm_num))

/-- **C8** (confirmed).  The Hemisphere Decoder maps `"S"` and `"W"` to −1
and any other single-letter input to +1. -/
theorem C8_hemisphere_decoder (h : String) (_hlen : h.length = 1)
    (hS : h ≠ "S") (hW : h ≠ "W") :
    lemi_hemisphere_parse "S" = -1 ∧ lemi_hemisphere_parse "W" = -1 ∧
    lemi_hemisphere_parse h = 1 := by
  refine ⟨by norm_num [lemi_hemisphere_parse], by norm_num [lemi_hemisphere_parse], ?_⟩
  unfold lemi_hemisphere_parse
  rw [if_neg (not_or.mpr ⟨hS, hW⟩)]

/-- **C8** witness: the theorem applied at the single letter `"N"`. -/
theorem C8_hemisphere_decoder_witness :
    lemi_hemisphere_parse "S" = -1 ∧ lemi_hemisphere_parse "W" = -1 ∧
    lemi_hemisphere_parse "N" = 1 :=
  C8_hemisphere_decoder "N" (by decide) (by decide) (by decide)

/-- **C10** (confirmed).  On a reader with no data loaded, `__str__` (and
`__repr__`, which delegates to it) unconditionally calls `isoformat` on the
absent start value, so the conversion raises instead of returning a
placeholder string. -/
theorem C10_str_unloaded_raises (s : LEMI424) (h : s.has_data = false) :
    s.toStr = .error "AttributeError: NoneType object has no attribute isoformat" := by
  have hs : s.start = none := by simp [LEMI424.start, h]
  simp [LEMI424.toStr, hs]

/-- **C10** witness: the theorem applied to the freshly constructed reader. -/
theorem C10_str_unloaded_raises_witness :
    LEMI424.new.toStr =
      .error "AttributeError: NoneType object has no attribute isoformat" :=
  C10_str_unloaded_raises LEMI424.new rfl

/-- Two traces sharing a start time but with different end times. -/
def exTraceA : Trace := { starttime := 0, endtime := 10, samples := [] }

/-- Second trace of the `C3` counterexample stream. -/
def exTraceB : Trace := { starttime := 0, endtime := 20, samples := [] }

/-- **C3** (counterexample).  The claim says one Run per distinct
`(start, end)` pair; the code deduplicates the start times and the end times
separately and zips the two sorted lists, so for the traces (0, 10) and
(0, 20) — two distinct pairs — it produces a single Run (zip of `[0]` with
`[10, 20]`), not two. -/
theorem C3_run_segmenter_counterexample :
    (segmentRuns [exTraceA, exTraceB]).length = 1 ∧
    (([exTraceA, exTraceB].map (fun t => (t.starttime, t.endtime))).dedup).length = 2 ∧
    (segmentRuns [exTraceA, exTraceB]).length ≠
      (([exTraceA, exTraceB].map (fun t => (t.starttime, t.endtime))).dedup).length := by
  refine ⟨?_, ?_, ?_⟩ <;> decide

/-- **C3** (amended).  The Run Segmenter deduplicates the start timestamps
and the end timestamps separately, sorts each ascending, and zips the two
lists positionally, producing as many Runs as the shorter of the two
distinct-value lists (equivalently: one Run per distinct pair only when the
two lists line up, e.g. when every trace of one run shares both bounds);
each Run slices the whole sample collection once with its window, the
windows' starts and ends are strictly ascending, and the Runs are numbered
sequentially from 1 with a three-digit zero-padded identifier. -/
theorem C3_run_segmenter (streams : List Trace) :
    (segmentRuns streams).length =
      min (sorted_set (streams.map Trace.starttime)).length
          (sorted_set (streams.map Trace.endtime)).length ∧
    (segmentRuns streams).map StreamRun.id =
      (List.range (segmentRuns streams).length).map (fun i => pad3 (i + 1)) ∧
    List.Sorted (· < ·) ((segmentRuns streams).map (fun r => r.window.1)) ∧
    List.Sorted (· < ·) ((segmentRuns streams).map (fun r => r.window.2)) ∧
    (∀ r ∈ segmentRuns streams,
      r.stream = streams.map (sliceTrace r.window.1 r.window.2)) := by
  refine ⟨?_, ?_, ?_, ?_, ?_⟩
  · simp [segmentRuns, List.length_zip]
  · simp only [segmentRuns, List.map_map, List.length_map, List.enum_length]
    rw [← List.enum_map_fst ((sorted_set (streams.map Trace.starttime)).zip
      (sorted_set (streams.map Trace.endtime))), List.map_map]
    rfl
  · have h1 : ((segmentRuns streams).map (fun r => r.window.1)) =
        ((sorted_set (streams.map Trace.starttime)).zip
          (sorted_set (streams.map Trace.endtime))).map Prod.fst := by
      simp only [segmentRuns, List.map_map]
      exact enum_map_snd_fst _
    rw [h1, map_fst_zip_eq_take]
    exact List.Pairwise.sublist (List.take_sublist _ _) (sorted_set_sorted _)
  · have h2 : ((segmentRuns streams).map (fun r => r.window.2)) =
        ((sorted_set (streams.map Trace.starttime)).zip
          (sorted_set (streams.map Trace.endtime))).map Prod.snd := by
      simp only [segmentRuns, List.map_map]
      exact enum_map_snd_snd _
    rw [h2, map_snd_zip_eq_take]
    exact List.Pairwise.sublist (List.take_sublist _ _) (sorted_set_sorted _)
  · intro r hr
    simp only [segmentRuns, List.mem_map] at hr
    obtain ⟨p, _, rfl⟩ := hr
    rfl

/-- **C3** witness: the amended theorem applied to the counterexample
stream — one run, identifier `"001"`. -/
theorem C3_run_segmenter_witness :
    (segmentRuns [exTraceA, exTraceB]).length = 1 ∧
    (segmentRuns [exTraceA, exTraceB]).map StreamRun.id = ["001"] := by
  have h := C3_run_segmenter [exTraceA, exTraceB]
  exact ⟨h.1.trans (by decide), h.2.1.trans (by decide)⟩

/-- **C4** (confirmed).  For every successfully loaded dataset, the derived
station latitude is the median of the decoded latitude column times the
median of the decoded latitude-hemisphere sign column, longitude likewise,
and elevation is the median of the elevation column, all over the entire
dataset; `station_metadata` reports exactly these values, and every
dataframe row's position columns are the converters' decodings of a raw
record. -/
theorem C4_station_coordinates (fs : List String) (contents : String → List RawRow)
    (s st : LEMI424) (arg : Option String)
    (h : LEMI424.read fs contents s arg = .ok st) :
    st.latitude =
      some (median (st.df.map Row.latitude) * median (st.df.map Row.lat_hemisphere)) ∧
    st.longitude =
      some (median (st.df.map Row.longitude) * median (st.df.map Row.lon_hemisphere)) ∧
    st.elevation = some (median (st.df.map Row.elevation)) ∧
    st.station_metadata.latitude = st.latitude ∧
    st.station_metadata.longitude = st.longitude ∧
    st.station_metadata.elevation = st.elevation ∧
    ∀ r ∈ st.df, ∃ rw : RawRow,
      r.latitude = lemi_position_parse rw.latitude ∧
      r.lat_hemisphere = lemi_hemisphere_parse rw.lat_hemisphere ∧
      r.longitude = lemi_position_parse rw.longitude ∧
      r.lon_hemisphere = lemi_hemisphere_parse rw.lon_hemisphere := by
  obtain ⟨hd, _, raw, hdf⟩ := read_ok_shape h
  refine ⟨by simp [LEMI424.latitude, hd], by simp [LEMI424.longitude, hd],
    by simp [LEMI424.elevation, hd], by simp [LEMI424.station_metadata, hd],
    by simp [LEMI424.station_metadata, hd], by simp [LEMI424.station_metadata, hd], ?_⟩
  intro r hr
  rw [hdf] at hr
  obtain ⟨rw, _, rfl⟩ := List.mem_map.mp hr
  exact ⟨rw, rfl, rfl, rfl, rfl⟩

/-- **C4** witness: the theorem applied to the fixture read — latitude
35 × (+1), longitude 7 × (−1), elevation 1200. -/
theorem C4_station_coordinates_witness :
    exLoaded.latitude = some 35 ∧ exLoaded.longitude = some (-7) ∧
    exLoaded.elevation = some 1200 ∧ exLoaded.station_metadata.latitude = some 35 := by
  have h := C4_station_coordinates exFs exContents LEMI424.new exLoaded
    (some "data.txt") exLoaded_read
  have hlat : exLoaded.latitude = some 35 := by
    norm_num [LEMI424.latitude, exLoaded, exRow, median, List.insertionSort,
      List.orderedInsert]
  have hlon : exLoaded.longitude = some (-7) := by
    norm_num [LEMI424.longitude, exLoaded, exRow, median, List.insertionSort,
      List.orderedInsert]
  have helev : exLoaded.elevation = some 1200 := by
    norm_num [LEMI424.elevation, exLoaded, exRow, median, List.insertionSort,
      List.orderedInsert]
  exact ⟨hlat, hlon, helev, h.2.2.2.1.trans hlat⟩

/-- **C5** (confirmed).  For the channel selection bx, by, bz, e1, e2,
temperature_e, temperature_h the assembler constructs channels typed
magnetic, magnetic, magnetic, electric, electric, auxiliary, auxiliary in
exactly that order: the hardcoded magnetic components first (leading `h` or
`b`), then the selected electric components (leading `e`), then the
auxiliary temperature components. -/
theorem C5_channel_assembler_order (s : LEMI424) :
    ((s.to_run_ts ["e1", "e2"]).array_list).map ChannelTS.chType =
      [ChannelType.magnetic, ChannelType.magnetic, ChannelType.magnetic,
       ChannelType.electric, ChannelType.electric,
       ChannelType.auxiliary, ChannelType.auxiliary] ∧
    ((s.to_run_ts ["e1", "e2"]).array_list).map ChannelTS.component =
      ["bx", "by", "bz", "e1", "e2", "temperature_e", "temperature_h"] :=
  ⟨rfl, rfl⟩

/-- **C6** (confirmed).  Assigning a non-existent non-None path raises
IOError at assignment time and calling `read` while the stored path does not
exist raises IOError at read time; in both cases the message carries the
offending path (the read aborts: the error is returned instead of a state). -/
theorem C6_missing_file_errors (fs : List String) (contents : String → List RawRow)
    (s : LEMI424) (p : String) (hp : fs.contains p = false) :
    fn_set fs s (some p) = .error ("Could not find " ++ p) ∧
    (s.fn = some p →
      LEMI424.read fs contents s none = .error ("Could not find file " ++ p)) := by
  have hp' : p ∉ fs := by simpa using hp
  constructor
  · simp [fn_set, hp']
  · intro hfn
    simp [LEMI424.read, hfn, hp']

/-- **C6** witness: assignment of `"gone.txt"` on an empty filesystem, and a
read on a reader whose stored `"gone.txt"` no longer exists. -/
theorem C6_missing_file_errors_witness :
    fn_set [] exMissing (some "gone.txt") = .error ("Could not find " ++ "gone.txt") ∧
    LEMI424.read [] exContents exMissing none =
      .error ("Could not find file " ++ "gone.txt") := by
  have h := C6_missing_file_errors [] exContents exMissing "gone.txt" rfl
  exact ⟨h.1, h.2 rfl⟩

/-- **C7** (confirmed).  Before any read every derived property — start, end,
latitude, longitude, elevation, sample count, fix-quality sequence — returns
the absent value `none` rather than raising; after a successful read of a
table with an ascending timestamp index all of them are defined and
`start ≤ end`. -/
theorem C7_absence_contract (fs : List String) (contents : String → List RawRow)
    (s st : LEMI424) (arg : Option String)
    (h : LEMI424.read fs contents s arg = .ok st)
    (hasc : st.df.Pairwise (fun a b => a.date ≤ b.date)) :
    (LEMI424.new.start = none ∧ LEMI424.new.«end» = none ∧
     LEMI424.new.latitude = none ∧ LEMI424.new.longitude = none ∧
     LEMI424.new.elevation = none ∧ LEMI424.new.n_samples = none ∧
     LEMI424.new.gps_lock = none) ∧
    st.start.isSome = true ∧ st.«end».isSome = true ∧ st.latitude.isSome = true ∧
    st.longitude.isSome = true ∧ st.elevation.isSome = true ∧
    st.n_samples.isSome = true ∧ st.gps_lock.isSome = true ∧
    (∀ a b : ℕ, st.start = some a → st.«end» = some b → a ≤ b) := by
  obtain ⟨hd, hne, _, _⟩ := read_ok_shape h
  refine ⟨⟨rfl, rfl, rfl, rfl, rfl, rfl, rfl⟩, ?_, ?_, ?_, ?_, ?_, ?_, ?_, ?_⟩
  · simp [LEMI424.start, hd, hne]
  · simp [LEMI424.«end», hd, hne]
  · simp [LEMI424.latitude, hd]
  · simp [LEMI424.longitude, hd]
  · simp [LEMI424.elevation, hd]
  · simp [LEMI424.n_samples, hd]
  · simp [LEMI424.gps_lock, hd]
  · intro a b ha hb
    rw [LEMI424.start, if_pos hd] at ha
    rw [LEMI424.«end», if_pos hd] at hb
    obtain ⟨x, hx, hxa⟩ := Option.map_eq_some'.mp ha
    obtain ⟨y, hy, hyb⟩ := Option.map_eq_some'.mp hb
    rw [← hxa, ← hyb]
    exact head_date_le_getLast_date hasc hx hy

/-- **C7** witness: unloaded reader all-absent; the fixture read gives
start 100 ≤ end 102. -/
theorem C7_absence_contract_witness :
    LEMI424.new.start = none ∧ LEMI424.new.latitude = none ∧
    exLoaded.start = some 100 ∧ exLoaded.«end» = some 102 ∧ (100 : ℕ) ≤ 102 := by
  have hasc : exLoaded.df.Pairwise (fun a b => a.date ≤ b.date) := by
    norm_num [exLoaded, exRow, List.pairwise_cons]
  have h := C7_absence_contract exFs exContents LEMI424.new exLoaded
    (some "data.txt") exLoaded_read hasc
  have hs : exLoaded.start = some 100 := by norm_num [LEMI424.start, exLoaded, exRow]
  have he : exLoaded.«end» = some 102 := by
    norm_num [LEMI424.«end», exLoaded, exRow, List.getLast?]
  exact ⟨h.1.1, h.1.2.2.1, hs, he, h.2.2.2.2.2.2.2.2 100 102 hs he⟩

/-- The first channel the assembler builds from the fixture reader: magnetic
`bx` at sample rate 1 starting at tick 100 with the bx column as data. -/
def exChannel : ChannelTS :=
  { chType := ChannelType.magnetic, sample_rate := 1, start := some 100,
    ts := [1, 1, 1], component := "bx" }

/-- **C9** (confirmed).  Every channel the assembler places in the Run it
produces carries the same start time — the table's first timestamp — and the
same sample rate — the reader's fixed acquisition rate. -/
theorem C9_run_channel_alignment (s : LEMI424) (e_channels : List String)
    (ch : ChannelTS) (hd : s.has_data = true)
    (hch : ch ∈ (s.to_run_ts e_channels).array_list) :
    ch.start = (s.df.head?).map Row.date ∧ ch.sample_rate = s.sample_rate := by
  obtain ⟨comp, _, rfl⟩ := List.mem_map.mp hch
  exact ⟨by simp [LEMI424.start, hd], rfl⟩

/-- **C9** witness: the theorem applied to the fixture reader and its first
channel. -/
theorem C9_run_channel_alignment_witness :
    exChannel.start = some 100 ∧ exChannel.sample_rate = 1 ∧
    exChannel ∈ (exLoaded.to_run_ts ["e1", "e2"]).array_list := by
  have hmem : exChannel ∈ (exLoaded.to_run_ts ["e1", "e2"]).array_list := by
    norm_num [LEMI424.to_run_ts, LEMI424.start, exLoaded, exRow, exChannel, Row.column]
    decide
  have h := C9_run_channel_alignment exLoaded ["e1", "e2"] exChannel rfl hmem
  exact ⟨h.1.trans (by norm_num [exLoaded, exRow]), h.2, hmem⟩

end Mth5Lemi
